import Mathlib

/-!
Verification of the SoundCave backend's access-control and follow-relationship
core, shallowly embedded from the Go source.

Embedded code:
- `models/user.go`: the `Role` enumeration and the followable fields of the
  `User` row (`Followers` JSON string array, `TotalFollower`).
- The `Artist` row (`models/playlist_song.go`): `Followers`, `TotalFollower`.
- `FollowUserHandler` / `UnfollowUserHandler` (user follow handlers).
- `FollowArtistHandler` / `UnfollowArtistHandler` (artist follow handlers).
- `utils.GenerateToken` / `utils.ValidateToken` (JWT, HS256) and
  `middleware.AuthMiddleware` (`middleware/auth.go`).

Modelling conventions:
- A handler is a pure function from its parsed inputs plus the result of the
  `db.First` point lookup (`Option` row) to `Except HErr row`; a returned
  `.ok row` is the row passed to `db.Save`, and an `.error` means the handler
  returned before any save, leaving the stored row unchanged.
- HTTP statuses the handlers produce are the constructors of `HErr`.
- Go `fmt.Sprintf("%d", id)` on the `uint` caller id is `toString id`.
- HS256 signing is modelled as perfect cryptography: a token records the
  secret it was signed with, and verification with secret `k` succeeds exactly
  when the token was signed with `k`.
-/

namespace Soundcave

/-- The closed role enumeration of `models/user.go`
(`user`, `admin`, `premium`, `independent`, `label`). -/
inductive Role
  | user
  | admin
  | premium
  | independent
  | label
deriving DecidableEq, Repr

/-- Error classes, one per HTTP status the embedded handlers return
(400, 401, 403, 404, 409, 500). -/
inductive HErr
  | badRequest
  | unauthorized
  | forbidden
  | notFound
  | conflict
  | internal
deriving DecidableEq, Repr

/-- The followable fields of a `models.User` row: primary key, role,
`Followers` (JSON array of string-encoded ids) and the denormalized
`TotalFollower` count. -/
structure User where
  id : Nat
  role : Role
  followers : List String
  totalFollower : Nat
deriving DecidableEq, Repr

/-- The followable fields of a `models.Artist` row (a dedicated artist record,
not tied to a login). -/
structure Artist where
  id : Nat
  followers : List String
  totalFollower : Nat
deriving DecidableEq, Repr

/-- The follower-removal loop shared by `UnfollowUserHandler` and
`UnfollowArtistHandler`: walk the list, set `found` on every element equal to
the caller's id string and keep the others in order.  Returns
`(found, newFollowers)`. -/
def removeAll (s : String) : List String → Bool × List String
  | [] => (false, [])
  | f :: rest =>
    let r := removeAll s rest
    if f = s then (true, r.2) else (r.1, f :: r.2)

/-- `FollowUserHandler`: role gate (only role `user` may follow, else 403),
`target_user_id` required (0 → 400), self-follow rejected (400), target looked
up (`none` → 404), target role must be `independent` or `label` (else 400),
duplicate follow rejected (409), otherwise the caller's id string is appended
to the target's follower list and `TotalFollower` is set to the new length. -/
def followUser (currentUserID : Nat) (currentRole : Role) (targetUserID : Nat)
    (lookup : Option User) : Except HErr User :=
  if currentRole ≠ Role.user then
    .error .forbidden
  else if targetUserID = 0 then
    .error .badRequest
  else if targetUserID = currentUserID then
    .error .badRequest
  else
    match lookup with
    | none => .error .notFound
    | some targetUser =>
      if targetUser.role ≠ Role.independent ∧ targetUser.role ≠ Role.label then
        .error .badRequest
      else if toString currentUserID ∈ targetUser.followers then
        .error .conflict
      else
        .ok { targetUser with
                followers := targetUser.followers ++ [toString currentUserID]
                totalFollower :=
                  (targetUser.followers ++ [toString currentUserID]).length }

/-- `UnfollowUserHandler`: role gate (403), `target_user_id` required (400),
target looked up (404), then the removal loop; if the caller was not found in
the list the handler returns 400 before saving, otherwise it saves the
filtered list with `TotalFollower` set to its length. -/
def unfollowUser (currentUserID : Nat) (currentRole : Role) (targetUserID : Nat)
    (lookup : Option User) : Except HErr User :=
  if currentRole ≠ Role.user then
    .error .forbidden
  else if targetUserID = 0 then
    .error .badRequest
  else
    match lookup with
    | none => .error .notFound
    | some targetUser =>
      if (removeAll (toString currentUserID) targetUser.followers).1 = false then
        .error .badRequest
      else
        .ok { targetUser with
                followers := (removeAll (toString currentUserID) targetUser.followers).2
                totalFollower :=
                  (removeAll (toString currentUserID) targetUser.followers).2.length }

/-- `FollowArtistHandler`: the request context carries the caller's role
(`c.Locals "role"`), but this handler never reads it — there is no role gate
and no self-follow check.  Artist looked up (404), duplicate follow rejected
(409), otherwise append and recount. -/
def followArtist (currentUserID : Nat) (_currentRole : Role)
    (lookup : Option Artist) : Except HErr Artist :=
  match lookup with
  | none => .error .notFound
  | some artist =>
    if toString currentUserID ∈ artist.followers then
      .error .conflict
    else
      .ok { artist with
              followers := artist.followers ++ [toString currentUserID]
              totalFollower :=
                (artist.followers ++ [toString currentUserID]).length }

/-- `UnfollowArtistHandler`: no role gate (role never read); artist looked up
(404), removal loop, 400 if the caller was not a follower, otherwise save the
filtered list with the recomputed count. -/
def unfollowArtist (currentUserID : Nat) (_currentRole : Role)
    (lookup : Option Artist) : Except HErr Artist :=
  match lookup with
  | none => .error .notFound
  | some artist =>
    if (removeAll (toString currentUserID) artist.followers).1 = false then
      .error .badRequest
    else
      .ok { artist with
              followers := (removeAll (toString currentUserID) artist.followers).2
              totalFollower :=
                (removeAll (toString currentUserID) artist.followers).2.length }

/-- JWT claims of `utils.Claims`: user id, email, role (a string inside the
token), and the registered `exp`, `iat`, `nbf` claims in unix seconds. -/
structure Claims where
  userID : Nat
  email : String
  role : String
  expiresAt : Nat
  issuedAt : Nat
  notBefore : Nat
deriving DecidableEq, Repr

/-- A signed token: its claims plus the secret the HS256 signature was
produced with (perfect-cryptography model: verification with secret `k`
succeeds iff `signedWith = k`). -/
structure Token where
  claims : Claims
  signedWith : String
deriving DecidableEq, Repr

/-- The fixed validity window of `utils.GenerateToken`: 30 days, in seconds. -/
def tokenValiditySeconds : Nat := 30 * 24 * 60 * 60

/-- `utils.GenerateToken`: issues a token with `exp = now + 30 days`,
`iat = nbf = now`, signed with the configured secret. -/
def generateToken (secret : String) (now : Nat) (userID : Nat)
    (email role : String) : Token :=
  { claims :=
      { userID := userID
        email := email
        role := role
        expiresAt := now + tokenValiditySeconds
        issuedAt := now
        notBefore := now }
    signedWith := secret }

/-- Failure reasons of token validation. -/
inductive TokenError
  | signatureInvalid
  | expired
  | notYetValid
deriving DecidableEq, Repr

/-- `utils.ValidateToken`: `jwt.ParseWithClaims` verifies the HS256 signature
and, by golang-jwt v5 default validation, the registered `exp` and `nbf`
claims: the token is accepted only while `now` is strictly before `exp`
(v5 checks `cmp.Before(exp)`, per RFC 7519), so `now ≥ exp` → expired; and
`now < nbf` → not yet valid. -/
def validateToken (secret : String) (now : Nat) (t : Token) :
    Except TokenError Claims :=
  if t.signedWith ≠ secret then
    .error .signatureInvalid
  else if t.claims.expiresAt ≤ now then
    .error .expired
  else if now < t.claims.notBefore then
    .error .notYetValid
  else
    .ok t.claims

/-- Split on every single space character, keeping empty fields — the
semantics of Go's `strings.Split(s, " ")` used by the middleware (and of
`String.splitOn " "`), written by structural recursion on the characters. -/
def splitCharsOnSpace : List Char → List (List Char)
  | [] => [[]]
  | c :: rest =>
    match splitCharsOnSpace rest with
    | [] => [[c]]
    | w :: ws => if c = ' ' then [] :: w :: ws else (c :: w) :: ws

/-- `strings.Split(s, " ")` of the middleware. -/
def splitOnSpace (s : String) : List String :=
  (splitCharsOnSpace s.data).map (fun w => String.mk w)

/-- `middleware.AuthMiddleware`: `header` is `c.Get "Authorization"` (`""`
when absent); missing header → 401, header not splitting into exactly
`["Bearer", token]` → 401; `decode` models jwt parsing of the token string
(`none` for a token that does not parse → 401); any `validateToken` failure
→ 401; on success the claims' `(user_id, email, role)` are propagated to the
request context. -/
def authMiddleware (decode : String → Option Token) (secret : String)
    (now : Nat) (header : String) : Except HErr (Nat × String × String) :=
  if header = "" then
    .error .unauthorized
  else
    if (splitOnSpace header).length ≠ 2 ∨
        (splitOnSpace header).headD "" ≠ "Bearer" then
      .error .unauthorized
    else
      match decode ((splitOnSpace header).getD 1 "") with
      | none => .error .unauthorized
      | some tok =>
        match validateToken secret now tok with
        | .error _ => .error .unauthorized
        | .ok claims => .ok (claims.userID, claims.email, claims.role)

/-- The removal loop computes membership and order-preserving filtering:
`found` is true iff the id string occurs, and the kept elements are exactly
those different from it. -/
theorem removeAll_eq (s : String) (l : List String) :
    removeAll s l = (decide (s ∈ l), l.filter (fun f => f ≠ s)) := by
  induction l with
  | nil => simp [removeAll]
  | cons f rest ih =>
    simp only [removeAll, ih, List.filter_cons]
    by_cases h : f = s
    · subst h
      simp
    · simp [h, Ne.symm h, List.mem_cons]

/-- C1: a fan with the plain user role following an existing target with a
followable role (independent or label) that it does not already follow and is
not itself: the call succeeds, the saved follower list contains exactly one
occurrence of the fan's id, and the saved count is the previous count plus
one (the previous count being in sync with the list, per the §3 invariant). -/
theorem followUser_single_follow_spec (fan tid : Nat) (t : User)
    (h0 : tid ≠ 0) (hne : tid ≠ fan)
    (hrole : t.role = Role.independent ∨ t.role = Role.label)
    (hmem : toString fan ∉ t.followers)
    (hcount : t.totalFollower = t.followers.length) :
    ∃ u, followUser fan Role.user tid (some t) = .ok u ∧
      u.followers.count (toString fan) = 1 ∧
      u.totalFollower = t.totalFollower + 1 := by
  have hr : ¬(t.role ≠ Role.independent ∧ t.role ≠ Role.label) := by
    rcases hrole with h | h <;> simp [h]
  refine ⟨{ t with
      followers := t.followers ++ [toString fan]
      totalFollower := (t.followers ++ [toString fan]).length }, ?_, ?_, ?_⟩
  · simp [followUser, h0, hne, hr, hmem]
  · simp [List.count_append, List.count_eq_zero.mpr hmem]
  · simp [hcount]

/-- Witness for C1 at fan 42, target 7 (role independent, empty list). -/
theorem followUser_single_follow_spec_witness :
    (7 : Nat) ≠ 0 ∧ (7 : Nat) ≠ 42 ∧
    ((User.mk 7 Role.independent [] 0).role = Role.independent ∨
      (User.mk 7 Role.independent [] 0).role = Role.label) ∧
    toString 42 ∉ (User.mk 7 Role.independent [] 0).followers ∧
    (∃ u, followUser 42 Role.user 7 (some (User.mk 7 Role.independent [] 0)) = .ok u ∧
      u.followers.count (toString 42) = 1 ∧
      u.totalFollower = (User.mk 7 Role.independent [] 0).totalFollower + 1) :=
  ⟨by decide, by decide, Or.inl rfl, by decide,
    followUser_single_follow_spec 42 7 (User.mk 7 Role.independent [] 0)
      (by decide) (by decide) (Or.inl rfl) (by decide) rfl⟩

/-- C3: from a state where the fan does not follow the target, a first Follow
succeeds and a second Follow against the row saved by the first yields the
409 conflict ("Anda sudah follow user ini"); the error return means the
handler exits before `db.Save`, so the second call leaves the stored row as
the first call left it. -/
theorem followUser_twice_conflict (fan tid : Nat) (t : User)
    (h0 : tid ≠ 0) (hne : tid ≠ fan)
    (hrole : t.role = Role.independent ∨ t.role = Role.label)
    (hmem : toString fan ∉ t.followers) :
    ∃ u, followUser fan Role.user tid (some t) = .ok u ∧
      followUser fan Role.user tid (some u) = .error .conflict := by
  have hr : ¬(t.role ≠ Role.independent ∧ t.role ≠ Role.label) := by
    rcases hrole with h | h <;> simp [h]
  refine ⟨{ t with
      followers := t.followers ++ [toString fan]
      totalFollower := (t.followers ++ [toString fan]).length }, ?_, ?_⟩
  · simp [followUser, h0, hne, hr, hmem]
  · simp [followUser, h0, hne, hr]

/-- Witness for C3 at fan 42, target 7. -/
theorem followUser_twice_conflict_witness :
    (7 : Nat) ≠ 0 ∧ (7 : Nat) ≠ 42 ∧
    ((User.mk 7 Role.label [] 0).role = Role.independent ∨
      (User.mk 7 Role.label [] 0).role = Role.label) ∧
    toString 42 ∉ (User.mk 7 Role.label [] 0).followers ∧
    (∃ u, followUser 42 Role.user 7 (some (User.mk 7 Role.label [] 0)) = .ok u ∧
      followUser 42 Role.user 7 (some u) = .error .conflict) :=
  ⟨by decide, by decide, Or.inr rfl, by decide,
    followUser_twice_conflict 42 7 (User.mk 7 Role.label [] 0)
      (by decide) (by decide) (Or.inr rfl) (by decide)⟩

/-- C4: Unfollow by a fan not present in the target's follower list fails with
the 400 "Anda belum follow user ini" rejection — the spec's `InvalidState`
class — and the handler returns before `db.Save`, so the stored list and
count are unchanged. -/
theorem unfollowUser_not_following_spec (fan tid : Nat) (t : User)
    (h0 : tid ≠ 0) (hmem : toString fan ∉ t.followers) :
    unfollowUser fan Role.user tid (some t) = .error .badRequest := by
  simp [unfollowUser, h0, removeAll_eq, hmem]

/-- Witness for C4 at fan 42, target 7 whose list holds only "9". -/
theorem unfollowUser_not_following_spec_witness :
    (7 : Nat) ≠ 0 ∧ toString 42 ∉ (User.mk 7 Role.independent ["9"] 1).followers ∧
    unfollowUser 42 Role.user 7 (some (User.mk 7 Role.independent ["9"] 1)) =
      .error .badRequest :=
  ⟨by decide, by decide,
    unfollowUser_not_following_spec 42 7 (User.mk 7 Role.independent ["9"] 1)
      (by decide) (by decide)⟩

/-- C10: a successful Unfollow removes every occurrence of the fan's id —
the removal loop skips each matching element — so even a stored list that
(contrary to the invariant) holds the id twice ends with zero occurrences,
and the saved count is the length of the filtered list. -/
theorem unfollowUser_removes_all (fan tid : Nat) (t : User)
    (h0 : tid ≠ 0) (hmem : toString fan ∈ t.followers) :
    ∃ u, unfollowUser fan Role.user tid (some t) = .ok u ∧
      u.followers = t.followers.filter (fun f => f ≠ toString fan) ∧
      u.followers.count (toString fan) = 0 ∧
      u.totalFollower = u.followers.length := by
  refine ⟨{ t with
      followers := t.followers.filter (fun f => f ≠ toString fan)
      totalFollower := (t.followers.filter (fun f => f ≠ toString fan)).length },
    ?_, rfl, ?_, rfl⟩
  · simp [unfollowUser, h0, removeAll_eq, hmem]
  · rw [List.count_eq_zero]
    simp

/-- Witness for C10 at a duplicated list ["42", "9", "42"]. -/
theorem unfollowUser_removes_all_witness :
    (7 : Nat) ≠ 0 ∧
    toString 42 ∈ (User.mk 7 Role.independent ["42", "9", "42"] 3).followers ∧
    (∃ u, unfollowUser 42 Role.user 7
        (some (User.mk 7 Role.independent ["42", "9", "42"] 3)) = .ok u ∧
      u.followers =
        (User.mk 7 Role.independent ["42", "9", "42"] 3).followers.filter
          (fun f => f ≠ toString 42) ∧
      u.followers.count (toString 42) = 0 ∧
      u.totalFollower = u.followers.length) :=
  ⟨by decide, by decide,
    unfollowUser_removes_all 42 7 (User.mk 7 Role.independent ["42", "9", "42"] 3)
      (by decide) (by decide)⟩

/-- Inversion of a successful `followUser`: recovers every precondition the
handler checked and the exact shape of the saved row. -/
theorem followUser_ok_inv {fan tid : Nat} {role : Role} {lk : Option User}
    {u : User} (h : followUser fan role tid lk = .ok u) :
    role = Role.user ∧ tid ≠ 0 ∧ tid ≠ fan ∧
    ∃ t, lk = some t ∧
      (t.role = Role.independent ∨ t.role = Role.label) ∧
      toString fan ∉ t.followers ∧
      u = { t with
              followers := t.followers ++ [toString fan]
              totalFollower := (t.followers ++ [toString fan]).length } := by
  unfold followUser at h
  split at h
  · simp at h
  next hrole =>
  split at h
  · simp at h
  next h0 =>
  split at h
  · simp at h
  next hne =>
  split at h
  · simp at h
  next t =>
  split at h
  · simp at h
  next htrole =>
  split at h
  · simp at h
  next hmem =>
  simp only [ne_eq, not_not] at hrole
  simp only [ne_eq, not_and_or, not_not] at htrole
  simp only [Except.ok.injEq] at h
  exact ⟨hrole, h0, hne, t, rfl, htrole, hmem, h.symm⟩

/-- Inversion of a successful `unfollowUser`. -/
theorem unfollowUser_ok_inv {fan tid : Nat} {role : Role} {lk : Option User}
    {u : User} (h : unfollowUser fan role tid lk = .ok u) :
    role = Role.user ∧ tid ≠ 0 ∧
    ∃ t, lk = some t ∧ toString fan ∈ t.followers ∧
      u = { t with
              followers := t.followers.filter (fun f => f ≠ toString fan)
              totalFollower :=
                (t.followers.filter (fun f => f ≠ toString fan)).length } := by
  unfold unfollowUser at h
  split at h
  · simp at h
  next hrole =>
  split at h
  · simp at h
  next h0 =>
  split at h
  · simp at h
  next t =>
  split at h
  · simp at h
  next hfound =>
  simp only [ne_eq, not_not] at hrole
  simp only [removeAll_eq, decide_eq_false_iff_not, not_not] at hfound
  simp only [removeAll_eq, Except.ok.injEq] at h
  exact ⟨hrole, h0, t, rfl, hfound, h.symm⟩

/-- Inversion of a successful `followArtist`. -/
theorem followArtist_ok_inv {fan : Nat} {role : Role} {lk : Option Artist}
    {b : Artist} (h : followArtist fan role lk = .ok b) :
    ∃ a, lk = some a ∧ toString fan ∉ a.followers ∧
      b = { a with
              followers := a.followers ++ [toString fan]
              totalFollower := (a.followers ++ [toString fan]).length } := by
  unfold followArtist at h
  split at h
  · simp at h
  next a =>
  split at h
  · simp at h
  next hmem =>
  simp only [Except.ok.injEq] at h
  exact ⟨a, rfl, hmem, h.symm⟩

/-- Inversion of a successful `unfollowArtist`. -/
theorem unfollowArtist_ok_inv {fan : Nat} {role : Role} {lk : Option Artist}
    {b : Artist} (h : unfollowArtist fan role lk = .ok b) :
    ∃ a, lk = some a ∧ toString fan ∈ a.followers ∧
      b = { a with
              followers := a.followers.filter (fun f => f ≠ toString fan)
              totalFollower :=
                (a.followers.filter (fun f => f ≠ toString fan)).length } := by
  unfold unfollowArtist at h
  split at h
  · simp at h
  next a =>
  split at h
  · simp at h
  next hfound =>
  simp only [removeAll_eq, decide_eq_false_iff_not, not_not] at hfound
  simp only [removeAll_eq, Except.ok.injEq] at h
  exact ⟨a, rfl, hfound, h.symm⟩

/-- Appending a fresh id keeps the list duplicate-free. -/
theorem nodup_append_fresh {l : List String} {s : String}
    (hnd : l.Nodup) (hmem : s ∉ l) : (l ++ [s]).Nodup := by
  rw [List.nodup_append]
  exact ⟨hnd, List.nodup_singleton s, by simpa [List.disjoint_singleton] using hmem⟩

/-- C2: every successful Follow or Unfollow — on user rows and on artist
rows — leaves the stored count equal to the follower-list length and, from a
duplicate-free list, a duplicate-free list; and a user-handler Follow whose
target id is the caller's own id can never succeed, so an identity's own id
is never added to its own follower list. -/
theorem follow_unfollow_preserve_invariant (fan tid : Nat) (role : Role)
    (t u : User) (a b : Artist)
    (hnd : t.followers.Nodup) (hnda : a.followers.Nodup) :
    ((followUser fan role tid (some t) = .ok u ∨
      unfollowUser fan role tid (some t) = .ok u) →
        u.totalFollower = u.followers.length ∧ u.followers.Nodup) ∧
    ((followArtist fan role (some a) = .ok b ∨
      unfollowArtist fan role (some a) = .ok b) →
        b.totalFollower = b.followers.length ∧ b.followers.Nodup) ∧
    (∀ (lk : Option User) (v : User), followUser fan role fan lk ≠ .ok v) := by
  refine ⟨?_, ?_, ?_⟩
  · rintro (h | h)
    · obtain ⟨-, -, -, t', ht', -, hmem, hu⟩ := followUser_ok_inv h
      obtain rfl : t = t' := by simpa using ht'
      subst hu
      exact ⟨rfl, nodup_append_fresh hnd hmem⟩
    · obtain ⟨-, -, t', ht', -, hu⟩ := unfollowUser_ok_inv h
      obtain rfl : t = t' := by simpa using ht'
      subst hu
      exact ⟨rfl, hnd.filter _⟩
  · rintro (h | h)
    · obtain ⟨a', ha', hmem, hb⟩ := followArtist_ok_inv h
      obtain rfl : a = a' := by simpa using ha'
      subst hb
      exact ⟨rfl, nodup_append_fresh hnda hmem⟩
    · obtain ⟨a', ha', -, hb⟩ := unfollowArtist_ok_inv h
      obtain rfl : a = a' := by simpa using ha'
      subst hb
      exact ⟨rfl, hnda.filter _⟩
  · intro lk v hv
    obtain ⟨-, -, hne, -⟩ := followUser_ok_inv hv
    exact hne rfl

/-- Witness for C2 at fan 42, target user 7 and artist 7 with clean lists. -/
theorem follow_unfollow_preserve_invariant_witness :
    (User.mk 7 Role.independent ["9"] 1).followers.Nodup ∧
    (Artist.mk 7 ["9"] 1).followers.Nodup ∧
    (((followUser 42 Role.user 7 (some (User.mk 7 Role.independent ["9"] 1)) =
          .ok (User.mk 7 Role.independent ["9", "42"] 2) ∨
        unfollowUser 42 Role.user 7 (some (User.mk 7 Role.independent ["9"] 1)) =
          .ok (User.mk 7 Role.independent ["9", "42"] 2)) →
        (User.mk 7 Role.independent ["9", "42"] 2).totalFollower =
            (User.mk 7 Role.independent ["9", "42"] 2).followers.length ∧
          (User.mk 7 Role.independent ["9", "42"] 2).followers.Nodup) ∧
      ((followArtist 42 Role.user (some (Artist.mk 7 ["9"] 1)) =
          .ok (Artist.mk 7 ["9", "42"] 2) ∨
        unfollowArtist 42 Role.user (some (Artist.mk 7 ["9"] 1)) =
          .ok (Artist.mk 7 ["9", "42"] 2)) →
        (Artist.mk 7 ["9", "42"] 2).totalFollower =
            (Artist.mk 7 ["9", "42"] 2).followers.length ∧
          (Artist.mk 7 ["9", "42"] 2).followers.Nodup) ∧
      (∀ (lk : Option User) (v : User),
        followUser 42 Role.user 42 lk ≠ .ok v)) :=
  ⟨by decide, by decide,
    follow_unfollow_preserve_invariant 42 7 Role.user
      (User.mk 7 Role.independent ["9"] 1) (User.mk 7 Role.independent ["9", "42"] 2)
      (Artist.mk 7 ["9"] 1) (Artist.mk 7 ["9", "42"] 2)
      (by decide) (by decide)⟩

/-- C5 counterexample: a self-follow attempted by an admin is rejected by the
role gate with 403 Forbidden — a class the spec's taxonomy keeps distinct from
Conflict — so Follow(I, I) does not yield a Conflict-class rejection
"regardless of the caller's role". -/
theorem followUser_self_admin_forbidden :
    followUser 1 Role.admin 1 none = .error HErr.forbidden ∧
    HErr.forbidden ≠ HErr.conflict := by
  exact ⟨rfl, by decide⟩

/-- C5 amended: Follow(I, I) always fails and never touches any follower
list, whatever the caller's role; but the rejection class is the role gate's
Forbidden for non-user roles and the self-follow 400 BadRequest (not the 409
Conflict used for duplicate follows) for the plain user role. -/
theorem followUser_self_always_fails (fan : Nat) (role : Role)
    (lk : Option User) :
    followUser fan role fan lk =
      .error (if role = Role.user then HErr.badRequest else HErr.forbidden) := by
  unfold followUser
  by_cases hr : role = Role.user
  · subst hr
    by_cases h0 : fan = 0 <;> simp [h0]
  · simp [hr]

/-- C6 counterexample: `FollowArtistHandler` has no role gate — an admin
caller's follow of an artist succeeds and mutates the follower list instead
of failing with Forbidden. -/
theorem followArtist_admin_succeeds :
    followArtist 1 Role.admin (some (Artist.mk 7 [] 0)) =
      .ok (Artist.mk 7 ["1"] 1) := by
  rfl

/-- C6 amended: the user-follow and user-unfollow handlers reject every
non-user caller with Forbidden whatever the lookup result (the gate runs
before the target is read) and never answer Forbidden to a user-role caller;
the artist-follow and artist-unfollow handlers never read the caller's role
at all. -/
theorem role_gate_only_user_handlers (fan tid : Nat) (role : Role)
    (lk : Option User) (alk : Option Artist) (h : role ≠ Role.user) :
    followUser fan role tid lk = .error HErr.forbidden ∧
    unfollowUser fan role tid lk = .error HErr.forbidden ∧
    followArtist fan role alk = followArtist fan Role.user alk ∧
    unfollowArtist fan role alk = unfollowArtist fan Role.user alk ∧
    (∀ lk2 : Option User,
      followUser fan Role.user tid lk2 ≠ .error HErr.forbidden) ∧
    (∀ lk2 : Option User,
      unfollowUser fan Role.user tid lk2 ≠ .error HErr.forbidden) := by
  refine ⟨by simp [followUser, h], by simp [unfollowUser, h], rfl, rfl, ?_, ?_⟩
  · intro lk2 hc
    cases lk2 with
    | none =>
      by_cases h0 : tid = 0
      · simp [followUser, h0] at hc
      · by_cases hne : tid = fan <;> simp [followUser, h0, hne] at hc
    | some t =>
      by_cases h0 : tid = 0
      · simp [followUser, h0] at hc
      · by_cases hne : tid = fan
        · simp [followUser, h0, hne] at hc
        · by_cases hrole : t.role ≠ Role.independent ∧ t.role ≠ Role.label
          · simp [followUser, h0, hne, hrole] at hc
          · by_cases hmem : toString fan ∈ t.followers
            · simp [followUser, h0, hne, hrole, hmem] at hc
            · simp [followUser, h0, hne, hrole, hmem] at hc
  · intro lk2 hc
    cases lk2 with
    | none =>
      by_cases h0 : tid = 0 <;> simp [unfollowUser, h0] at hc
    | some t =>
      by_cases h0 : tid = 0
      · simp [unfollowUser, h0] at hc
      · by_cases hf : (removeAll (toString fan) t.followers).1 = false
        · simp [unfollowUser, h0, hf] at hc
        · simp [unfollowUser, h0, hf] at hc

/-- Witness for C6's amended statement at an admin caller. -/
theorem role_gate_only_user_handlers_witness :
    Role.admin ≠ Role.user ∧
    (followUser 1 Role.admin 2 none = .error HErr.forbidden ∧
      unfollowUser 1 Role.admin 2 none = .error HErr.forbidden ∧
      followArtist 1 Role.admin none = followArtist 1 Role.user none ∧
      unfollowArtist 1 Role.admin none = unfollowArtist 1 Role.user none ∧
      (∀ lk2 : Option User,
        followUser 1 Role.user 2 lk2 ≠ .error HErr.forbidden) ∧
      (∀ lk2 : Option User,
        unfollowUser 1 Role.user 2 lk2 ≠ .error HErr.forbidden)) :=
  ⟨by decide, role_gate_only_user_handlers 1 2 Role.admin none none (by decide)⟩

/-- Initially-empty followable target of the concurrency scenario. -/
def raceTarget : User :=
  { id := 7, role := Role.independent, followers := [], totalFollower := 0 }

/-- C9 (code bug): under the interleaving "request 1 reads, request 2 reads,
request 1 saves, request 2 saves", both `FollowUserHandler` executions read
the same initial row `raceTarget`, both pass the duplicate scan and succeed —
but each computes its saved row from the stale read, and the second `db.Save`
(a full-row overwrite) persists followers `["43"]` with count 1: fan 42's
follow is lost and the final count is 1, not the 2 the claim requires.  The
handler takes no lock and uses no transaction around the read-modify-write. -/
theorem concurrent_follow_lost_update :
    followUser 42 Role.user 7 (some raceTarget) =
      .ok (User.mk 7 Role.independent ["42"] 1) ∧
    followUser 43 Role.user 7 (some raceTarget) =
      .ok (User.mk 7 Role.independent ["43"] 1) ∧
    (User.mk 7 Role.independent ["43"] 1).totalFollower ≠ 2 := by
  exact ⟨rfl, rfl, by decide⟩

/-- C7: a token issued by `generateToken` passes validation with the same
secret at any instant inside its validity window, yielding exactly the issued
(id, email, role); presented to the middleware in a well-formed Bearer
header, those three values are what reaches the request context.  The window
is `nbf ≤ now < exp`: golang-jwt v5 already rejects at the expiry instant. -/
theorem token_round_trip (secret : String) (now1 now2 id : Nat)
    (email role : String)
    (h1 : now1 ≤ now2) (h2 : now2 < now1 + tokenValiditySeconds)
    (decode : String → Option Token)
    (hdec : decode "t" = some (generateToken secret now1 id email role)) :
    validateToken secret now2 (generateToken secret now1 id email role) =
      .ok (generateToken secret now1 id email role).claims ∧
    (generateToken secret now1 id email role).claims.userID = id ∧
    (generateToken secret now1 id email role).claims.email = email ∧
    (generateToken secret now1 id email role).claims.role = role ∧
    authMiddleware decode secret now2 "Bearer t" = .ok (id, email, role) := by
  have hval : validateToken secret now2 (generateToken secret now1 id email role) =
      .ok (generateToken secret now1 id email role).claims := by
    unfold validateToken
    rw [if_neg (by simp [generateToken]), if_neg (by simp [generateToken]; omega),
      if_neg (by simp [generateToken]; omega)]
  refine ⟨hval, rfl, rfl, rfl, ?_⟩
  have hsplit : splitOnSpace "Bearer t" = ["Bearer", "t"] := by decide
  unfold authMiddleware
  rw [if_neg (by decide), hsplit, if_neg (by decide)]
  simp only [List.getD_cons_succ, List.getD_cons_zero]
  simp only [hdec, hval]
  simp [generateToken]

/-- Decode map of the C7 witness: the literal "t" is the issued token. -/
def wDecode : String → Option Token :=
  fun s => if s = "t" then some (generateToken "k" 0 42 "e" "user") else none

/-- Witness for C7 at secret "k", issue time 0, check time 1, id 42. -/
theorem token_round_trip_witness :
    (0 : Nat) ≤ 1 ∧ (1 : Nat) < 0 + tokenValiditySeconds ∧
    wDecode "t" = some (generateToken "k" 0 42 "e" "user") ∧
    (validateToken "k" 1 (generateToken "k" 0 42 "e" "user") =
        .ok (generateToken "k" 0 42 "e" "user").claims ∧
      (generateToken "k" 0 42 "e" "user").claims.userID = 42 ∧
      (generateToken "k" 0 42 "e" "user").claims.email = "e" ∧
      (generateToken "k" 0 42 "e" "user").claims.role = "user" ∧
      authMiddleware wDecode "k" 1 "Bearer t" = .ok (42, "e", "user")) :=
  ⟨by decide, by decide, rfl,
    token_round_trip "k" 0 1 42 "e" "user" (by decide) (by decide) wDecode rfl⟩

/-- A token signed with the right secret and far from expiry, but whose
`nbf` (not-before) lies in the future relative to the check time 50. -/
def nbfToken : Token :=
  { claims :=
      { userID := 1
        email := "e"
        role := "user"
        expiresAt := 1000
        issuedAt := 100
        notBefore := 100 }
    signedWith := "k" }

/-- Decode map of the C8 counterexample. -/
def nbfDecode : String → Option Token :=
  fun s => if s = "t" then some nbfToken else none

/-- C8 counterexample: at time 50 the middleware rejects `nbfToken` as 401
although the header is present and well-shaped, the token parses, its
signature is valid, and its expiry has not passed — golang-jwt v5 also
enforces the `nbf` claim, a cause the claim's "if and only if" list omits. -/
theorem authMiddleware_nbf_counterexample :
    authMiddleware nbfDecode "k" 50 "Bearer t" = .error HErr.unauthorized ∧
    "Bearer t" ≠ "" ∧
    (splitOnSpace "Bearer t").length = 2 ∧
    (splitOnSpace "Bearer t").headD "" = "Bearer" ∧
    nbfDecode ((splitOnSpace "Bearer t").getD 1 "") = some nbfToken ∧
    nbfToken.signedWith = "k" ∧
    ¬nbfToken.claims.expiresAt ≤ 50 :=
  ⟨rfl, by decide, by decide, by decide, rfl, rfl, by decide⟩

/-- C8 amended: the middleware answers 401 Unauthenticated exactly when the
header is missing, the header is not of the two-part "Bearer token" shape,
the token string does not parse, the signature is invalid, the expiry has
passed (the check time is at or beyond `exp` — v5 rejects at the expiry
instant), or the not-before time has not yet been reached — and it answers
401 in no other case. -/
theorem authMiddleware_unauthorized_iff (decode : String → Option Token)
    (secret : String) (now : Nat) (header : String) :
    authMiddleware decode secret now header = .error HErr.unauthorized ↔
      header = "" ∨
      (splitOnSpace header).length ≠ 2 ∨
      (splitOnSpace header).headD "" ≠ "Bearer" ∨
      decode ((splitOnSpace header).getD 1 "") = none ∨
      ∃ tok, decode ((splitOnSpace header).getD 1 "") = some tok ∧
        (tok.signedWith ≠ secret ∨ tok.claims.expiresAt ≤ now ∨
          now < tok.claims.notBefore) := by
  unfold authMiddleware
  by_cases h1 : header = ""
  · simp [h1]
  · rw [if_neg h1]
    by_cases h2 : (splitOnSpace header).length ≠ 2 ∨
        (splitOnSpace header).headD "" ≠ "Bearer"
    · rw [if_pos h2]
      constructor
      · intro _
        rcases h2 with h2 | h2
        · exact Or.inr (Or.inl h2)
        · exact Or.inr (Or.inr (Or.inl h2))
      · intro _
        rfl
    · rw [if_neg h2]
      push_neg at h2
      obtain ⟨hlen, hhead⟩ := h2
      rw [List.headD_eq_head?] at hhead
      cases hdec : decode ((splitOnSpace header).getD 1 "") with
      | none => simp [h1, hlen, hhead]
      | some tok =>
        by_cases hsig : tok.signedWith ≠ secret
        · have hv : validateToken secret now tok = .error .signatureInvalid := by
            unfold validateToken
            rw [if_pos hsig]
          simp [h1, hlen, hhead, hv, hsig]
        · by_cases hexp : tok.claims.expiresAt ≤ now
          · have hv : validateToken secret now tok = .error .expired := by
              unfold validateToken
              rw [if_neg hsig, if_pos hexp]
            simp [h1, hlen, hhead, hv, hexp]
          · by_cases hnbf : now < tok.claims.notBefore
            · have hv : validateToken secret now tok = .error .notYetValid := by
                unfold validateToken
                rw [if_neg hsig, if_neg hexp, if_pos hnbf]
              simp [h1, hlen, hhead, hv, hnbf]
            · have hv : validateToken secret now tok = .ok tok.claims := by
                unfold validateToken
                rw [if_neg hsig, if_neg hexp, if_neg hnbf]
              simp [h1, hlen, hhead, hv, hsig, hexp, hnbf]

end Soundcave
